import Mathlib

/-!
# Verification of the GitHub plugin core (src/index.ts)

Shallow embedding of the `GitHub` service class: the `emit` event dispatch,
the `getTokens` OAuth call, the `_request` header construction and the
`request` pipeline with its 401-triggered refresh-and-retry semantics.

External collaborators (the HTTP requester `this.http`, the `ctx.serial`
event bus, the i18n `session.text` renderer) are modelled as oracle
functions supplied in a `World`.  Each operation returns, besides its
result, the ordered trace of observable effects (HTTP calls, token-endpoint
posts, messages sent), so that claims about "exactly one call" are
statements about the trace.
-/

/-- An HTTP response as delivered by the requester on success (2xx). -/
structure Response where
  status : Nat
  body : String
deriving DecidableEq, Repr

/-- A JavaScript value thrown by the requester.  `axios e` is an error
recognised by `Quester.isAxiosError` carrying an optional `response`
(absent on network failure); `other` is any other thrown value, which may
itself happen to carry a `response`-shaped field. -/
inductive JsError where
  | axios (response : Option Response)
  | other (response : Option Response) (message : String)
deriving DecidableEq, Repr

/-- `Quester.isAxiosError(error)` from the koishi HTTP abstraction. -/
def Quester.isAxiosError : JsError → Bool
  | JsError.axios _ => true
  | JsError.other _ _ => false

/-- The optional-chaining access `error.response?.status`. -/
def JsError.responseStatus : JsError → Option Nat
  | JsError.axios r => r.map Response.status
  | JsError.other r _ => r.map Response.status

/-- The OAuth token-endpoint response (`interface OAuth` in the source). -/
structure OAuth where
  access_token : String
  expires_in : String
  refresh_token : String
  refresh_token_expires_in : String
  token_type : String
  scope : String
deriving DecidableEq, Repr

/-- The two persisted identity fields `user.github.{accessToken,refreshToken}`. -/
structure GithubUser where
  accessToken : String
  refreshToken : String
deriving DecidableEq, Repr

/-- The session visible to `request`: the stored GitHub credential pair plus
the rest of the session state, opaque to this core. -/
structure Session (ρ : Type) where
  github : GithubUser
  rest : ρ

/-- A call issued through `this.http(method, url, {data, headers, timeout})`. -/
structure HttpCall where
  method : String
  url : String
  data : Option String
  headers : List (String × String)
  timeout : Option Nat
deriving DecidableEq, Repr

/-- A POST issued through `this.http.post(url, {}, {params, headers, timeout})`
against the token endpoint. -/
structure TokenCall where
  url : String
  params : List (String × Option String)
  headers : List (String × String)
  timeout : Option Nat
deriving DecidableEq, Repr

/-- Observable effects of one `request`/`getTokens` execution, in order. -/
inductive Effect where
  | http (c : HttpCall)
  | tokenPost (c : TokenCall)
  | send (message : String)
  | execute (command : String)
deriving DecidableEq, Repr

/-- The environment: how the requester answers API calls and token-endpoint
posts, and how `session.text` renders an i18n key. -/
structure World where
  http : HttpCall → Except JsError Response
  tokenHttp : TokenCall → Except JsError OAuth
  text : String → String

/-- Result of `request` as seen by the caller: a returned response, a
propagated (re)thrown error, or the (undefined) result of the `authorize`
escape hatch. -/
inductive ReqResult where
  | ok (r : Response)
  | thrown (e : JsError)
  | authorized
deriving DecidableEq, Repr

/-- Lookup in a JS object built by spreading the pairs left to right:
a later entry with the same key shadows an earlier one. -/
def assocLast {α : Type} (l : List (String × α)) (k : String) : Option α :=
  (l.reverse.find? fun p => p.1 == k).map Prod.snd

/-- The subset of `GitHub.Config` that the verified operations read. -/
structure Config where
  appId : Option String
  appSecret : Option String
  requestTimeout : Option Nat

/-- A handler-pipeline result as a JS value: its truthiness plus opaque
content.  `ctx.serial` returning `undefined` is modelled as `none`. -/
structure JsVal where
  truthy : Bool
  data : String
deriving DecidableEq, Repr

/-- JS truthiness of the `result` variable in `emit` (`undefined` is falsy). -/
def jsTruthy : Option JsVal → Bool
  | none => false
  | some v => v.truthy

/-- A webhook payload as far as `emit` inspects it: the optional `action`
discriminator plus the rest, opaque. -/
structure CommonPayload where
  action : Option String
  rest : String
deriving DecidableEq, Repr

/-- Truthiness of `payload.action` (absent or empty string is falsy). -/
def actionTruthy : Option String → Bool
  | none => false
  | some a => a != ""

/-- The general pipeline key built by `emit`. -/
def eventKey (event : String) : String := "github/event/" ++ event

/-- The action-specific pipeline key built by `emit`. -/
def actionKey (event action : String) : String :=
  "github/event/" ++ event ++ "/" ++ action

/-- `GitHub.emit`, with `ctx.serial` as an oracle.  Returns the final
`result` and the ordered list of pipeline keys consulted. -/
def GitHub.emit (serial : String → CommonPayload → Option JsVal)
    (event : String) (payload : CommonPayload) :
    Option JsVal × List String :=
  let step1 : Option JsVal × List String :=
    match payload.action with
    | some a =>
      if a != "" then (serial (actionKey event a) payload, [actionKey event a])
      else (none, [])
    | none => (none, [])
  if jsTruthy step1.1 then step1
  else (serial (eventKey event) payload, step1.2 ++ [eventKey event])

/-- The two default headers that `_request` spreads before the caller's. -/
def defaultApiHeaders (accessToken : String) : List (String × String) :=
  [("accept", "application/vnd.github.v3+json"),
   ("authorization", "token " ++ accessToken)]

/-- The `HttpCall` that `_request` builds: defaults first, caller headers
spread after (so a caller entry with the same key shadows a default). -/
def GitHub.mkApiCall (cfg : Config) (method url : String) (u : GithubUser)
    (data : Option String) (headers : List (String × String)) : HttpCall :=
  { method := method
    url := url
    data := data
    headers := defaultApiHeaders u.accessToken ++ headers
    timeout := cfg.requestTimeout }

/-- `GitHub._request`: issue the call with the authorization and accept
defaults merged with the caller's headers. -/
def GitHub._request (cfg : Config) (w : World) (method url : String)
    (u : GithubUser) (data : Option String) (headers : List (String × String)) :
    Except JsError Response × List Effect :=
  let c := GitHub.mkApiCall cfg method url u data headers
  (w.http c, [Effect.http c])

/-- The `TokenCall` that `getTokens` builds: `client_id`/`client_secret`
from configuration, caller params spread after (caller shadows). -/
def GitHub.mkTokenCall (cfg : Config) (params : List (String × Option String)) :
    TokenCall :=
  { url := "https://github.com/login/oauth/access_token"
    params := [("client_id", cfg.appId), ("client_secret", cfg.appSecret)] ++ params
    headers := [("Accept", "application/json")]
    timeout := cfg.requestTimeout }

/-- `GitHub.getTokens`: one POST to the token endpoint, response parsed as
an `OAuth` object (or the thrown error). -/
def GitHub.getTokens (cfg : Config) (w : World)
    (params : List (String × Option String)) :
    Except JsError OAuth × List Effect :=
  let c := GitHub.mkTokenCall cfg params
  (w.tokenHttp c, [Effect.tokenPost c])

/-- The params `request` passes to `getTokens` on the refresh path. -/
def GitHub.refreshParams (refreshToken : String) : List (String × Option String) :=
  [("refresh_token", some refreshToken), ("grant_type", some "refresh_token")]

/-- `GitHub.authorize`: send the message, then execute the
`github.authorize` command; returns undefined. -/
def GitHub.authorize (message : String) : List Effect :=
  [Effect.send message, Effect.execute "github.authorize"]

/-- `GitHub.request`: the authenticated pipeline.  Returns the caller's
result, the final session, and the ordered effect trace.

Mirrors the source: empty access token short-circuits to `authorize`; a
thrown error triggers a refresh only when it is an Axios error whose
`response?.status` is exactly 401, otherwise it is rethrown; a failed
refresh goes to `authorize` with the expired message; a successful refresh
writes both token fields and retries once, whose outcome is returned as-is. -/
def GitHub.request {ρ : Type} (cfg : Config) (w : World) (method url : String)
    (s : Session ρ) (body : Option String) (headers : List (String × String)) :
    ReqResult × Session ρ × List Effect :=
  if s.github.accessToken = "" then
    (ReqResult.authorized, s, GitHub.authorize (w.text "github.require-auth"))
  else
    match GitHub._request cfg w method url s.github body headers with
    | (Except.ok r, t1) => (ReqResult.ok r, s, t1)
    | (Except.error e, t1) =>
      if Quester.isAxiosError e = true ∧ e.responseStatus = some 401 then
        match GitHub.getTokens cfg w (GitHub.refreshParams s.github.refreshToken) with
        | (Except.error _, t2) =>
          (ReqResult.authorized, s,
            t1 ++ t2 ++ GitHub.authorize (w.text "github.auth-expired"))
        | (Except.ok data, t2) =>
          let s' : Session ρ :=
            { s with github :=
              { accessToken := data.access_token
                refreshToken := data.refresh_token } }
          match GitHub._request cfg w method url s'.github body headers with
          | (Except.ok r, t3) => (ReqResult.ok r, s', t1 ++ t2 ++ t3)
          | (Except.error e2, t3) => (ReqResult.thrown e2, s', t1 ++ t2 ++ t3)
      else
        (ReqResult.thrown e, s, t1)

/-- Whether an effect is a token-endpoint POST (a refresh attempt when it
occurs inside `request`). -/
def Effect.isTokenPost : Effect → Bool
  | Effect.tokenPost _ => true
  | _ => false

/-! ## Concrete fixtures

The scenario of the spec: identity `A1`/`R1`, a requester that answers 401
to the stale token and 200 to any other, a token endpoint that issues
`A2`/`R2`. -/

/-- A concrete configuration. -/
def cfg1 : Config :=
  { appId := some "ID", appSecret := some "SECRET", requestTimeout := some 5000 }

/-- Session with a stored identity `A1`/`R1`. -/
def s1 : Session Unit :=
  { github := { accessToken := "A1", refreshToken := "R1" }, rest := () }

/-- Session with no stored access token. -/
def s0 : Session Unit :=
  { github := { accessToken := "", refreshToken := "" }, rest := () }

/-- The token endpoint's answer: fresh pair `A2`/`R2`. -/
def oauth2 : OAuth :=
  { access_token := "A2", expires_in := "", refresh_token := "R2",
    refresh_token_expires_in := "", token_type := "", scope := "" }

/-- An Axios error with response status 401. -/
def e401 : JsError := JsError.axios (some { status := 401, body := "" })

/-- A world where the stale token `A1` draws a 401 and anything else
succeeds with 200, and the token endpoint always issues `A2`/`R2`. -/
def w1 : World :=
  { http := fun c =>
      if assocLast c.headers "authorization" = some "token A1"
      then Except.error e401
      else Except.ok { status := 200, body := "user-data" }
    tokenHttp := fun _ => Except.ok oauth2
    text := fun key => key }

/-- A world where every API call succeeds with 200. -/
def wOk : World :=
  { http := fun _ => Except.ok { status := 200, body := "user-data" }
    tokenHttp := fun _ => Except.ok oauth2
    text := fun key => key }

/-- A world where every API call fails with 500 and the token endpoint
rejects the refresh. -/
def w500 : World :=
  { http := fun _ => Except.error (JsError.axios (some { status := 500, body := "" }))
    tokenHttp := fun _ => Except.error (JsError.other none "bad refresh token")
    text := fun key => key }

/-- A world where every API call throws a value that is not an Axios error
yet carries a 401-like status inside. -/
def wOther : World :=
  { http := fun _ =>
      Except.error (JsError.other (some { status := 401, body := "" }) "401-like")
    tokenHttp := fun _ => Except.ok oauth2
    text := fun key => key }

/-- A world answering 401 to `A1` whose token endpoint rejects refreshes. -/
def w1bad : World :=
  { http := w1.http
    tokenHttp := fun _ => Except.error (JsError.other none "bad refresh token")
    text := fun key => key }

/-- Spreading `a` then `b` into one JS object: a key found in `b` shadows
its binding in `a`. -/
theorem assocLast_append {α : Type} (a b : List (String × α)) (k : String) :
    assocLast (a ++ b) k =
      match assocLast b k with
      | some v => some v
      | none => assocLast a k := by
  unfold assocLast
  rw [List.reverse_append, List.find?_append]
  rcases h : b.reverse.find? (fun p => p.1 == k) with _ | v <;>
    simp [h, Option.orElse]

/-- Lookup in a two-entry JS object: the later entry wins. -/
theorem assocLast_pair {α : Type} (k1 k2 : String) (v1 v2 : α) (k : String) :
    assocLast [(k1, v1), (k2, v2)] k =
      if k2 = k then some v2 else if k1 = k then some v1 else none := by
  by_cases h2 : k2 = k
  · simp [assocLast, List.find?, h2]
  · have b2 : (k2 == k) = false := beq_eq_false_iff_ne.mpr h2
    by_cases h1 : k1 = k
    · simp [assocLast, List.find?, h1, h2, b2]
    · have b1 : (k1 == k) = false := beq_eq_false_iff_ne.mpr h1
      simp [assocLast, List.find?, h1, h2, b1, b2]

/-- Spreading two distinct default entries before caller entries `l`: the
caller's binding wins on each default key when present, the default shows
through otherwise, and every other key resolves exactly as in `l`. -/
theorem assocLast_two_defaults {α : Type} {k1 k2 : String} (hne : k1 ≠ k2)
    (v1 v2 : α) (l : List (String × α)) :
    assocLast ([(k1, v1), (k2, v2)] ++ l) k1 =
      some ((assocLast l k1).getD v1) ∧
    assocLast ([(k1, v1), (k2, v2)] ++ l) k2 =
      some ((assocLast l k2).getD v2) ∧
    ∀ k, k ≠ k1 → k ≠ k2 →
      assocLast ([(k1, v1), (k2, v2)] ++ l) k = assocLast l k := by
  refine ⟨?_, ?_, ?_⟩
  · rw [assocLast_append]
    rcases h : assocLast l k1 with _ | v
    · simp [assocLast_pair, Ne.symm hne]
    · simp
  · rw [assocLast_append]
    rcases h : assocLast l k2 with _ | v
    · simp [assocLast_pair]
    · simp
  · intro k hk1 hk2
    rw [assocLast_append]
    rcases h : assocLast l k with _ | v
    · simp [assocLast_pair, Ne.symm hk1, Ne.symm hk2]
    · simp

/-- The general key is never equal to an action-specific key (the latter
is strictly longer). -/
theorem eventKey_ne_actionKey (event a : String) :
    eventKey event ≠ actionKey event a := by
  intro h
  have hlen := congrArg String.length h
  rw [eventKey, actionKey] at hlen
  simp only [String.length_append] at hlen
  have hone : ("/" : String).length = 1 := rfl
  rw [hone] at hlen
  omega

/-! ## Claim theorems -/

/-- C2: when the stored identity has no access token (the JS-falsy empty
string), `request` issues no HTTP call at all: it invokes the `authorize`
escape hatch with the `github.require-auth` message and returns its
(undefined) result, leaving the session unchanged. -/
theorem request_no_token_authorize {ρ : Type} (cfg : Config) (w : World)
    (method url : String) (s : Session ρ) (body : Option String)
    (headers : List (String × String))
    (hTok : s.github.accessToken = "") :
    GitHub.request cfg w method url s body headers =
      (ReqResult.authorized, s,
        [Effect.send (w.text "github.require-auth"),
         Effect.execute "github.authorize"]) := by
  simp [GitHub.request, hTok, GitHub.authorize]

/-- Witness for C2: the empty-token session goes straight to `authorize`. -/
theorem request_no_token_authorize_witness :
    GitHub.request cfg1 w1 "GET" "/user" s0 none [] =
      (ReqResult.authorized, s0,
        [Effect.send "github.require-auth", Effect.execute "github.authorize"]) :=
  request_no_token_authorize cfg1 w1 "GET" "/user" s0 none [] rfl

/-- C4: with a token present, when the first call throws anything that is
not an Axios error of status exactly 401, `request` issues exactly one
HTTP call (the trace is that single call) and rethrows the error
unmodified, leaving the session unchanged. -/
theorem request_non401_propagates {ρ : Type} (cfg : Config) (w : World)
    (method url : String) (s : Session ρ) (body : Option String)
    (headers : List (String × String)) (e : JsError)
    (hTok : s.github.accessToken ≠ "")
    (hFail : w.http (GitHub.mkApiCall cfg method url s.github body headers) =
      Except.error e)
    (hNot : ¬ (Quester.isAxiosError e = true ∧ e.responseStatus = some 401)) :
    GitHub.request cfg w method url s body headers =
      (ReqResult.thrown e, s,
        [Effect.http (GitHub.mkApiCall cfg method url s.github body headers)]) := by
  simp [GitHub.request, GitHub._request, hTok, hFail, hNot]

/-- Witness for C4: a 500 answer is propagated after a single call. -/
theorem request_non401_propagates_witness :
    GitHub.request cfg1 w500 "GET" "/user" s1 none [] =
      (ReqResult.thrown (JsError.axios (some { status := 500, body := "" })), s1,
        [Effect.http (GitHub.mkApiCall cfg1 "GET" "/user" s1.github none [])]) :=
  request_non401_propagates cfg1 w500 "GET" "/user" s1 none []
    (JsError.axios (some { status := 500, body := "" }))
    (by decide) rfl (by decide)

/-- C3: when the first call fails with an Axios 401 and the refresh call
then fails with any error, `request` does not retry: the trace holds
exactly one HTTP call and one token post, followed by the `authorize`
escape hatch with the `github.auth-expired` message, whose (undefined)
result is returned; the stored tokens are unchanged. -/
theorem request_refresh_fail_authorize {ρ : Type} (cfg : Config) (w : World)
    (method url : String) (s : Session ρ) (body : Option String)
    (headers : List (String × String)) (e err : JsError)
    (hTok : s.github.accessToken ≠ "")
    (hFail : w.http (GitHub.mkApiCall cfg method url s.github body headers) =
      Except.error e)
    (hAx : Quester.isAxiosError e = true)
    (hSt : e.responseStatus = some 401)
    (hRefresh : w.tokenHttp
        (GitHub.mkTokenCall cfg (GitHub.refreshParams s.github.refreshToken)) =
      Except.error err) :
    GitHub.request cfg w method url s body headers =
      (ReqResult.authorized, s,
        [Effect.http (GitHub.mkApiCall cfg method url s.github body headers),
         Effect.tokenPost
           (GitHub.mkTokenCall cfg (GitHub.refreshParams s.github.refreshToken)),
         Effect.send (w.text "github.auth-expired"),
         Effect.execute "github.authorize"]) := by
  simp [GitHub.request, GitHub._request, GitHub.getTokens, GitHub.authorize,
    hTok, hFail, hAx, hSt, hRefresh]

/-- Witness for C3: 401 then a rejected refresh ends in `authorize`. -/
theorem request_refresh_fail_authorize_witness :
    GitHub.request cfg1 w1bad "GET" "/user" s1 none [] =
      (ReqResult.authorized, s1,
        [Effect.http (GitHub.mkApiCall cfg1 "GET" "/user" s1.github none []),
         Effect.tokenPost (GitHub.mkTokenCall cfg1 (GitHub.refreshParams "R1")),
         Effect.send "github.auth-expired",
         Effect.execute "github.authorize"]) :=
  request_refresh_fail_authorize cfg1 w1bad "GET" "/user" s1 none []
    e401 (JsError.other none "bad refresh token")
    (by decide) rfl rfl rfl rfl

/-- C1: when the first call fails with an Axios 401 and the refresh
succeeds, `request` performs exactly one refresh — a token post whose
params carry the stored refresh token and `grant_type=refresh_token` —
updates both stored tokens, and retries the original request exactly once
with the new access token in its authorization header; the retry's outcome
(success or any failure) is returned as-is, with no further effect. -/
theorem request_401_refresh_retry {ρ : Type} (cfg : Config) (w : World)
    (method url : String) (s : Session ρ) (body : Option String)
    (headers : List (String × String)) (e : JsError) (data : OAuth)
    (hTok : s.github.accessToken ≠ "")
    (hFail : w.http (GitHub.mkApiCall cfg method url s.github body headers) =
      Except.error e)
    (hAx : Quester.isAxiosError e = true)
    (hSt : e.responseStatus = some 401)
    (hRefresh : w.tokenHttp
        (GitHub.mkTokenCall cfg (GitHub.refreshParams s.github.refreshToken)) =
      Except.ok data) :
    let g2 : GithubUser :=
      { accessToken := data.access_token, refreshToken := data.refresh_token }
    let retry := GitHub.mkApiCall cfg method url g2 body headers
    GitHub.request cfg w method url s body headers =
      ((match w.http retry with
        | Except.ok r => ReqResult.ok r
        | Except.error e2 => ReqResult.thrown e2),
       { s with github := g2 },
       [Effect.http (GitHub.mkApiCall cfg method url s.github body headers),
        Effect.tokenPost
          (GitHub.mkTokenCall cfg (GitHub.refreshParams s.github.refreshToken)),
        Effect.http retry]) ∧
    ("authorization", "token " ++ data.access_token) ∈ retry.headers ∧
    (GitHub.mkTokenCall cfg (GitHub.refreshParams s.github.refreshToken)).params =
      [("client_id", cfg.appId), ("client_secret", cfg.appSecret),
       ("refresh_token", some s.github.refreshToken),
       ("grant_type", some "refresh_token")] := by
  refine ⟨?_, ?_, rfl⟩
  · rcases h2 : w.http (GitHub.mkApiCall cfg method url
        { accessToken := data.access_token, refreshToken := data.refresh_token }
        body headers) with e2 | r <;>
      simp [GitHub.request, GitHub._request, GitHub.getTokens,
        hTok, hFail, hAx, hSt, hRefresh, h2]
  · simp [GitHub.mkApiCall, defaultApiHeaders]

/-- Witness for C1: the spec's concrete scenario — identity `A1`/`R1`
draws a 401, the refresh yields `A2`/`R2`, both fields are updated, and
the retry (carrying `token A2`) succeeds with the 200 answer that the
caller receives. -/
theorem request_401_refresh_retry_witness :
    (GitHub.request cfg1 w1 "GET" "/user" s1 none [] =
      (ReqResult.ok { status := 200, body := "user-data" },
       { github := { accessToken := "A2", refreshToken := "R2" }, rest := () },
       [Effect.http (GitHub.mkApiCall cfg1 "GET" "/user" s1.github none []),
        Effect.tokenPost (GitHub.mkTokenCall cfg1 (GitHub.refreshParams "R1")),
        Effect.http (GitHub.mkApiCall cfg1 "GET" "/user"
          { accessToken := "A2", refreshToken := "R2" } none [])])) ∧
    ("authorization", "token A2") ∈
      (GitHub.mkApiCall cfg1 "GET" "/user"
        { accessToken := "A2", refreshToken := "R2" } none []).headers := by
  have h := request_401_refresh_retry cfg1 w1 "GET" "/user" s1 none [] e401 oauth2
    (by decide) rfl rfl rfl rfl
  exact ⟨h.1, h.2.1⟩

/-- C5: in every execution of `request`, the stored credential pair is
updated atomically or not at all: either both fields keep their entry
values, or a refresh succeeded and both fields are exactly the fresh
pair's `access_token`/`refresh_token` — no run produces a state with only
one field changed. -/
theorem request_token_pair_atomic {ρ : Type} (cfg : Config) (w : World)
    (method url : String) (s : Session ρ) (body : Option String)
    (headers : List (String × String)) :
    (GitHub.request cfg w method url s body headers).2.1.github = s.github ∨
    ∃ data : OAuth,
      w.tokenHttp
          (GitHub.mkTokenCall cfg (GitHub.refreshParams s.github.refreshToken)) =
        Except.ok data ∧
      (GitHub.request cfg w method url s body headers).2.1.github =
        { accessToken := data.access_token, refreshToken := data.refresh_token } := by
  by_cases hTok : s.github.accessToken = ""
  · left; simp [GitHub.request, hTok]
  · rcases hFail : w.http (GitHub.mkApiCall cfg method url s.github body headers)
      with e | r
    · by_cases hC : Quester.isAxiosError e = true ∧ e.responseStatus = some 401
      · rcases hR : w.tokenHttp
            (GitHub.mkTokenCall cfg (GitHub.refreshParams s.github.refreshToken))
          with err | data
        · left
          simp [GitHub.request, GitHub._request, GitHub.getTokens,
            hTok, hFail, hC, hR]
        · right
          refine ⟨data, rfl, ?_⟩
          rcases h2 : w.http (GitHub.mkApiCall cfg method url
              { accessToken := data.access_token,
                refreshToken := data.refresh_token } body headers) with e2 | r2 <;>
            simp [GitHub.request, GitHub._request, GitHub.getTokens,
              hTok, hFail, hC, hR, h2]
      · left; simp [GitHub.request, GitHub._request, hTok, hFail, hC]
    · left; simp [GitHub.request, GitHub._request, hTok, hFail]

/-- C9: with a token present and a first call that throws `e`, the refresh
path runs exactly when `e` is an Axios error whose `response?.status` is
exactly 401 — the trace contains one token post in that case and none
otherwise — and in every other case (non-Axios value even with a 401-like
status inside, Axios error without response, any other status) the thrown
value is rethrown unchanged after the single call. -/
theorem request_refresh_condition {ρ : Type} (cfg : Config) (w : World)
    (method url : String) (s : Session ρ) (body : Option String)
    (headers : List (String × String)) (e : JsError)
    (hTok : s.github.accessToken ≠ "")
    (hFail : w.http (GitHub.mkApiCall cfg method url s.github body headers) =
      Except.error e) :
    (GitHub.request cfg w method url s body headers).2.2.countP
        (fun x => Effect.isTokenPost x) =
      (if Quester.isAxiosError e = true ∧ e.responseStatus = some 401
        then 1 else 0) ∧
    (¬ (Quester.isAxiosError e = true ∧ e.responseStatus = some 401) →
      GitHub.request cfg w method url s body headers =
        (ReqResult.thrown e, s,
          [Effect.http (GitHub.mkApiCall cfg method url s.github body headers)])) := by
  by_cases hC : Quester.isAxiosError e = true ∧ e.responseStatus = some 401
  · refine ⟨?_, fun hn => absurd hC hn⟩
    rw [if_pos hC]
    rcases hR : w.tokenHttp
        (GitHub.mkTokenCall cfg (GitHub.refreshParams s.github.refreshToken))
      with err | data
    · simp [GitHub.request, GitHub._request, GitHub.getTokens, GitHub.authorize,
        hTok, hFail, hC, hR, List.countP_cons, Effect.isTokenPost]
    · rcases h2 : w.http (GitHub.mkApiCall cfg method url
          { accessToken := data.access_token,
            refreshToken := data.refresh_token } body headers) with e2 | r2 <;>
        simp [GitHub.request, GitHub._request, GitHub.getTokens,
          hTok, hFail, hC, hR, h2, List.countP_cons, Effect.isTokenPost]
  · have hmain : GitHub.request cfg w method url s body headers =
        (ReqResult.thrown e, s,
          [Effect.http (GitHub.mkApiCall cfg method url s.github body headers)]) := by
      simp [GitHub.request, GitHub._request, hTok, hFail, hC]
    refine ⟨?_, fun _ => hmain⟩
    rw [hmain, if_neg hC]
    simp [List.countP_cons, Effect.isTokenPost]

/-- Witness for C9: a thrown non-Axios value that even carries a 401-like
status inside draws no refresh — zero token posts — and is rethrown. -/
theorem request_refresh_condition_witness :
    (GitHub.request cfg1 wOther "GET" "/user" s1 none []).2.2.countP
        (fun x => Effect.isTokenPost x) = 0 ∧
    GitHub.request cfg1 wOther "GET" "/user" s1 none [] =
      (ReqResult.thrown
          (JsError.other (some { status := 401, body := "" }) "401-like"), s1,
        [Effect.http (GitHub.mkApiCall cfg1 "GET" "/user" s1.github none [])]) := by
  have h := request_refresh_condition cfg1 wOther "GET" "/user" s1 none []
    (JsError.other (some { status := 401, body := "" }) "401-like")
    (by decide) rfl
  exact ⟨h.1.trans (by decide), h.2 (by decide)⟩

/-- C10: `request` writes nothing in the session beyond the stored GitHub
credential pair — the rest of the session is returned untouched on every
path — and the two credential fields are written only on the
successful-refresh path: whenever they differ from their entry values, the
refresh call succeeded, its token post is in the trace, and the fields are
exactly the fresh pair; in particular an execution whose trace is the
single initial HTTP call (a first-try success or a propagated non-401
error) returns with the stored credentials identical to their entry
values. -/
theorem request_frame {ρ : Type} (cfg : Config) (w : World)
    (method url : String) (s : Session ρ) (body : Option String)
    (headers : List (String × String)) :
    (GitHub.request cfg w method url s body headers).2.1.rest = s.rest ∧
    ((GitHub.request cfg w method url s body headers).2.1.github ≠ s.github →
      ∃ data : OAuth,
        w.tokenHttp
            (GitHub.mkTokenCall cfg (GitHub.refreshParams s.github.refreshToken)) =
          Except.ok data ∧
        Effect.tokenPost
            (GitHub.mkTokenCall cfg (GitHub.refreshParams s.github.refreshToken)) ∈
          (GitHub.request cfg w method url s body headers).2.2 ∧
        (GitHub.request cfg w method url s body headers).2.1.github =
          { accessToken := data.access_token,
            refreshToken := data.refresh_token }) ∧
    ((GitHub.request cfg w method url s body headers).2.2 =
        [Effect.http (GitHub.mkApiCall cfg method url s.github body headers)] →
      (GitHub.request cfg w method url s body headers).2.1.github = s.github) := by
  by_cases hTok : s.github.accessToken = ""
  · have hEq : GitHub.request cfg w method url s body headers =
        (ReqResult.authorized, s,
          [Effect.send (w.text "github.require-auth"),
           Effect.execute "github.authorize"]) := by
      simp [GitHub.request, hTok, GitHub.authorize]
    rw [hEq]
    exact ⟨rfl, fun h => absurd rfl h, fun _ => rfl⟩
  · rcases hFail : w.http (GitHub.mkApiCall cfg method url s.github body headers)
      with e | r
    · by_cases hC : Quester.isAxiosError e = true ∧ e.responseStatus = some 401
      · rcases hR : w.tokenHttp
            (GitHub.mkTokenCall cfg (GitHub.refreshParams s.github.refreshToken))
          with err | data
        · have hEq : GitHub.request cfg w method url s body headers =
              (ReqResult.authorized, s,
                [Effect.http (GitHub.mkApiCall cfg method url s.github body headers),
                 Effect.tokenPost
                   (GitHub.mkTokenCall cfg
                     (GitHub.refreshParams s.github.refreshToken)),
                 Effect.send (w.text "github.auth-expired"),
                 Effect.execute "github.authorize"]) := by
            simp [GitHub.request, GitHub._request, GitHub.getTokens,
              GitHub.authorize, hTok, hFail, hC, hR]
          rw [hEq]
          exact ⟨rfl, fun h => absurd rfl h, fun h => by simp at h⟩
        · rcases h2 : w.http (GitHub.mkApiCall cfg method url
              { accessToken := data.access_token,
                refreshToken := data.refresh_token } body headers) with e2 | r2
          · have hEq : GitHub.request cfg w method url s body headers =
                (ReqResult.thrown e2,
                  { s with github :=
                    { accessToken := data.access_token,
                      refreshToken := data.refresh_token } },
                  [Effect.http (GitHub.mkApiCall cfg method url s.github body headers),
                   Effect.tokenPost
                     (GitHub.mkTokenCall cfg
                       (GitHub.refreshParams s.github.refreshToken)),
                   Effect.http (GitHub.mkApiCall cfg method url
                     { accessToken := data.access_token,
                       refreshToken := data.refresh_token } body headers)]) := by
              simp [GitHub.request, GitHub._request, GitHub.getTokens,
                hTok, hFail, hC, hR, h2]
            rw [hEq]
            exact ⟨rfl, fun _ => ⟨data, rfl, by simp, rfl⟩, fun h => by simp at h⟩
          · have hEq : GitHub.request cfg w method url s body headers =
                (ReqResult.ok r2,
                  { s with github :=
                    { accessToken := data.access_token,
                      refreshToken := data.refresh_token } },
                  [Effect.http (GitHub.mkApiCall cfg method url s.github body headers),
                   Effect.tokenPost
                     (GitHub.mkTokenCall cfg
                       (GitHub.refreshParams s.github.refreshToken)),
                   Effect.http (GitHub.mkApiCall cfg method url
                     { accessToken := data.access_token,
                       refreshToken := data.refresh_token } body headers)]) := by
              simp [GitHub.request, GitHub._request, GitHub.getTokens,
                hTok, hFail, hC, hR, h2]
            rw [hEq]
            exact ⟨rfl, fun _ => ⟨data, rfl, by simp, rfl⟩, fun h => by simp at h⟩
      · have hEq : GitHub.request cfg w method url s body headers =
            (ReqResult.thrown e, s,
              [Effect.http (GitHub.mkApiCall cfg method url s.github body headers)]) := by
          simp [GitHub.request, GitHub._request, hTok, hFail, hC]
        rw [hEq]
        exact ⟨rfl, fun h => absurd rfl h, fun _ => rfl⟩
    · have hEq : GitHub.request cfg w method url s body headers =
          (ReqResult.ok r, s,
            [Effect.http (GitHub.mkApiCall cfg method url s.github body headers)]) := by
        simp [GitHub.request, GitHub._request, hTok, hFail]
      rw [hEq]
      exact ⟨rfl, fun h => absurd rfl h, fun _ => rfl⟩

/-- Witness for C10: a first-try success leaves both the credentials and
the rest of the session exactly as they were, and the one run that does
change them (the A1/R1 scenario) is a successful refresh whose token post
is in the trace and whose fresh pair is exactly what is stored. -/
theorem request_frame_witness :
    (GitHub.request cfg1 wOk "GET" "/user" s1 none []).2.1.rest = s1.rest ∧
    (GitHub.request cfg1 wOk "GET" "/user" s1 none []).2.1.github = s1.github ∧
    ∃ data : OAuth,
      w1.tokenHttp
          (GitHub.mkTokenCall cfg1 (GitHub.refreshParams s1.github.refreshToken)) =
        Except.ok data ∧
      Effect.tokenPost
          (GitHub.mkTokenCall cfg1 (GitHub.refreshParams s1.github.refreshToken)) ∈
        (GitHub.request cfg1 w1 "GET" "/user" s1 none []).2.2 ∧
      (GitHub.request cfg1 w1 "GET" "/user" s1 none []).2.1.github =
        { accessToken := data.access_token,
          refreshToken := data.refresh_token } := by
  have hOk := request_frame cfg1 wOk "GET" "/user" s1 none []
  have hW1 := request_frame cfg1 w1 "GET" "/user" s1 none []
  exact ⟨hOk.1, hOk.2.2 rfl, hW1.2.1 (by decide)⟩

/-- With a token present, every path of `request` opens its trace with the
initial HTTP call built by `_request`. -/
theorem request_trace_head {ρ : Type} (cfg : Config) (w : World)
    (method url : String) (s : Session ρ) (body : Option String)
    (headers : List (String × String))
    (hTok : s.github.accessToken ≠ "") :
    ∃ tail, (GitHub.request cfg w method url s body headers).2.2 =
      Effect.http (GitHub.mkApiCall cfg method url s.github body headers) :: tail := by
  rcases hFail : w.http (GitHub.mkApiCall cfg method url s.github body headers)
    with e | r
  · by_cases hC : Quester.isAxiosError e = true ∧ e.responseStatus = some 401
    · rcases hR : w.tokenHttp
          (GitHub.mkTokenCall cfg (GitHub.refreshParams s.github.refreshToken))
        with err | data
      · refine ⟨[Effect.tokenPost
            (GitHub.mkTokenCall cfg (GitHub.refreshParams s.github.refreshToken)),
          Effect.send (w.text "github.auth-expired"),
          Effect.execute "github.authorize"], ?_⟩
        simp [GitHub.request, GitHub._request, GitHub.getTokens, GitHub.authorize,
          hTok, hFail, hC, hR]
      · rcases h2 : w.http (GitHub.mkApiCall cfg method url
            { accessToken := data.access_token,
              refreshToken := data.refresh_token } body headers) with e2 | r2 <;>
          refine ⟨[Effect.tokenPost
              (GitHub.mkTokenCall cfg (GitHub.refreshParams s.github.refreshToken)),
            Effect.http (GitHub.mkApiCall cfg method url
              { accessToken := data.access_token,
                refreshToken := data.refresh_token } body headers)], ?_⟩ <;>
          simp [GitHub.request, GitHub._request, GitHub.getTokens,
            hTok, hFail, hC, hR, h2]
    · exact ⟨[], by simp [GitHub.request, GitHub._request, hTok, hFail, hC]⟩
  · exact ⟨[], by simp [GitHub.request, GitHub._request, hTok, hFail]⟩

/-- C7: every authenticated call is issued with the fixed
`accept: application/vnd.github.v3+json` and
`authorization: token <accessToken>` defaults, the caller's headers spread
over them: a caller entry under the same key overrides the default, the
defaults resolve otherwise, and every other caller header passes through
untouched. -/
theorem request_default_headers {ρ : Type} (cfg : Config) (w : World)
    (method url : String) (s : Session ρ) (body : Option String)
    (headers : List (String × String))
    (hTok : s.github.accessToken ≠ "") :
    (∃ tail, (GitHub.request cfg w method url s body headers).2.2 =
        Effect.http (GitHub.mkApiCall cfg method url s.github body headers) :: tail) ∧
    assocLast (GitHub.mkApiCall cfg method url s.github body headers).headers
        "authorization" =
      some ((assocLast headers "authorization").getD
        ("token " ++ s.github.accessToken)) ∧
    assocLast (GitHub.mkApiCall cfg method url s.github body headers).headers
        "accept" =
      some ((assocLast headers "accept").getD "application/vnd.github.v3+json") ∧
    ∀ k, k ≠ "accept" → k ≠ "authorization" →
      assocLast (GitHub.mkApiCall cfg method url s.github body headers).headers k =
        assocLast headers k := by
  obtain ⟨hacc, hauth, hother⟩ :=
    @assocLast_two_defaults String "accept" "authorization" (by decide)
      "application/vnd.github.v3+json" ("token " ++ s.github.accessToken) headers
  exact ⟨request_trace_head cfg w method url s body headers hTok,
    hauth, hacc, hother⟩

/-- Witness for C7: with a caller-supplied `accept` header, the issued
call carries the default authorization and the caller's accept value. -/
theorem request_default_headers_witness :
    assocLast (GitHub.mkApiCall cfg1 "GET" "/user" s1.github none
        [("accept", "custom/type")]).headers "authorization" = some "token A1" ∧
    assocLast (GitHub.mkApiCall cfg1 "GET" "/user" s1.github none
        [("accept", "custom/type")]).headers "accept" = some "custom/type" := by
  have h := request_default_headers cfg1 wOk "GET" "/user" s1 none
    [("accept", "custom/type")] (by decide)
  exact ⟨h.2.1.trans (by decide), h.2.2.1.trans (by decide)⟩

/-- C8: `getTokens` performs exactly one POST, to the provider token
endpoint, carrying `Accept: application/json`, the configured request
timeout, and as parameters the configured `client_id`/`client_secret`
with the caller's params spread over them (caller wins on a shared key,
other caller params pass through); its result is the response parsed as
an `OAuth` object. -/
theorem getTokens_spec (cfg : Config) (w : World)
    (params : List (String × Option String)) :
    GitHub.getTokens cfg w params =
      (w.tokenHttp (GitHub.mkTokenCall cfg params),
        [Effect.tokenPost (GitHub.mkTokenCall cfg params)]) ∧
    (GitHub.mkTokenCall cfg params).url =
      "https://github.com/login/oauth/access_token" ∧
    (GitHub.mkTokenCall cfg params).headers = [("Accept", "application/json")] ∧
    (GitHub.mkTokenCall cfg params).timeout = cfg.requestTimeout ∧
    assocLast (GitHub.mkTokenCall cfg params).params "client_id" =
      some ((assocLast params "client_id").getD cfg.appId) ∧
    assocLast (GitHub.mkTokenCall cfg params).params "client_secret" =
      some ((assocLast params "client_secret").getD cfg.appSecret) ∧
    ∀ k, k ≠ "client_id" → k ≠ "client_secret" →
      assocLast (GitHub.mkTokenCall cfg params).params k = assocLast params k := by
  obtain ⟨hid, hsec, hother⟩ :=
    @assocLast_two_defaults (Option String) "client_id" "client_secret" (by decide)
      cfg.appId cfg.appSecret params
  exact ⟨rfl, rfl, rfl, rfl, hid, hsec, hother⟩

/-- C6: `emit` consults the action-specific pipeline exactly when
`payload.action` is JS-truthy; a truthy result from it is returned with
the general pipeline never invoked, and in every other case — falsy
specific result, or no (or empty) action — the general pipeline is
consulted and its result returned. -/
theorem emit_dispatch (serial : String → CommonPayload → Option JsVal)
    (event : String) (payload : CommonPayload) :
    (actionTruthy payload.action = false →
      GitHub.emit serial event payload =
        (serial (eventKey event) payload, [eventKey event])) ∧
    (∀ a, payload.action = some a → a ≠ "" →
      (jsTruthy (serial (actionKey event a) payload) = true →
        GitHub.emit serial event payload =
          (serial (actionKey event a) payload, [actionKey event a]) ∧
        eventKey event ∉ [actionKey event a]) ∧
      (jsTruthy (serial (actionKey event a) payload) = false →
        GitHub.emit serial event payload =
          (serial (eventKey event) payload,
            [actionKey event a, eventKey event]))) := by
  constructor
  · intro h
    rcases hA : payload.action with _ | a
    · simp [GitHub.emit, hA, jsTruthy, eventKey]
    · have ha : a = "" := by
        rw [hA] at h
        simpa [actionTruthy] using h
      simp [GitHub.emit, hA, ha, jsTruthy, eventKey]
  · intro a hA hne
    constructor
    · intro hT
      refine ⟨?_, ?_⟩
      · simp [GitHub.emit, hA, hne, hT]
      · simp [eventKey_ne_actionKey event a]
    · intro hF
      simp [GitHub.emit, hA, hne, hF]

/-- Witness for C6: the spec scenario — `emit` of `issues` with action
`closed`, no specific handler, and a general handler producing a truthy
summary resolves to that summary after consulting both pipelines. -/
theorem emit_dispatch_witness :
    GitHub.emit
        (fun k _ => if k = "github/event/issues"
          then some { truthy := true, data := "closed 7" } else none)
        "issues" { action := some "closed", rest := "number 7" } =
      (some { truthy := true, data := "closed 7" },
        ["github/event/issues/closed", "github/event/issues"]) := by
  have h := ((emit_dispatch
      (fun k _ => if k = "github/event/issues"
        then some { truthy := true, data := "closed 7" } else none)
      "issues" { action := some "closed", rest := "number 7" }).2
    "closed" rfl (by decide)).2 (by decide)
  exact h.trans (by decide)
